import Mathlib

/-!
Shallow embedding of the MCVecLib matrix/vector library (src/src/matrix2.ts,
src/unnamed/part_001 = matrix3.ts, src/unnamed/part_000 = vector3.ts fragment).

Numbers are modelled as exact reals. Fallible constructors return Option
(`none` models a thrown error). The vector helpers `dot`, `cross`, `length`,
`normalize`, `West` and the structural predicates `isVector2` / `isVector3`
live in vector source files that are not part of src/; they are modelled from
the spec where indicated.
-/

noncomputable section

namespace MCVecLib

/-- The Vector2 interface: an ordered pair of numeric fields x, y. -/
@[ext] structure Vector2 where
  x : ℝ
  y : ℝ

/-- The Vector3 interface: an ordered triple of numeric fields x, y, z
(src/unnamed/part_000). -/
@[ext] structure Vector3 where
  x : ℝ
  y : ℝ
  z : ℝ

/-- The Matrix2 interface of src/src/matrix2.ts: four named coefficients,
column letter (u, v) then row subscript (x, y). -/
@[ext] structure Matrix2 where
  ux : ℝ
  vx : ℝ
  uy : ℝ
  vy : ℝ

/-- The Matrix3 interface of src/unnamed/part_001: nine named coefficients,
column letter (u, v, w) then row subscript (x, y, z). -/
@[ext] structure Matrix3 where
  ux : ℝ
  vx : ℝ
  wx : ℝ
  uy : ℝ
  vy : ℝ
  wy : ℝ
  uz : ℝ
  vz : ℝ
  wz : ℝ

namespace Vec2

/-- Modelled from the spec: vector2.ts is not under src/; §4.1 defines
`dot(a, b)` as the sum of component-wise products. -/
def dot (a b : Vector2) : ℝ :=
  a.x * b.x + a.y * b.y

end Vec2

namespace Vec3

/-- Vec3.from of src/unnamed/part_000: optional components default to the
first argument via nullish coalescing (`y ?? x`, `z ?? x`); `none` models a
missing or undefined/null argument. Named from' because `from` is a Lean
keyword. -/
def from' (x : ℝ) (y z : Option ℝ) : Vector3 :=
  { x := x
    y := y.getD x
    z := z.getD x }

/-- Modelled from the spec: vector3.ts is not under src/; §4.1 defines
`dot(a, b)` as the sum of component-wise products. -/
def dot (a b : Vector3) : ℝ :=
  a.x * b.x + a.y * b.y + a.z * b.z

/-- Modelled from the spec: vector3.ts is not under src/; §4.1 gives the
right-hand-rule cross product formula. -/
def cross (a b : Vector3) : Vector3 :=
  { x := a.y * b.z - a.z * b.y
    y := a.z * b.x - a.x * b.z
    z := a.x * b.y - a.y * b.x }

/-- Modelled from the spec: vector3.ts is not under src/; §4.1 defines
`length(v)` as `sqrt(dot(v,v))`. -/
def length (v : Vector3) : ℝ :=
  Real.sqrt (dot v v)

/-- Modelled from the spec: vector3.ts is not under src/; §4.1 defines
`normalize(v)` as `v` scaled by `1/length(v)`. -/
def normalize (v : Vector3) : Vector3 :=
  { x := v.x * (1 / length v)
    y := v.y * (1 / length v)
    z := v.z * (1 / length v) }

/-- Modelled from the spec: vector3.ts is not under src/; §4.3 describes the
buildTNB fallback as a fixed unit vector along the world west / negative-x
axis. -/
def West : Vector3 :=
  { x := -1, y := 0, z := 0 }

end Vec3

namespace Mat2

/-- The 2×2 identity matrix constant. -/
def Identity : Matrix2 :=
  { ux := 1, vx := 0
    uy := 0, vy := 1 }

/-- Mat2.from on the flat-array overload: requires at least 4 elements, read
in row-major order; otherwise the code throws ("Invalid input values"),
modelled as `none`. The defaults passed to getD are unreachable under the
length guard. -/
def fromArray (l : List ℝ) : Option Matrix2 :=
  if 4 ≤ l.length then
    some { ux := l.getD 0 0, vx := l.getD 1 0
           uy := l.getD 2 0, vy := l.getD 3 0 }
  else none

/-- First column vector of a matrix. -/
def c1 (m : Matrix2) : Vector2 :=
  { x := m.ux, y := m.uy }

/-- Second column vector of a matrix. -/
def c2 (m : Matrix2) : Vector2 :=
  { x := m.vx, y := m.vy }

/-- First row vector of a matrix. -/
def r1 (m : Matrix2) : Vector2 :=
  { x := m.ux, y := m.vx }

/-- Second row vector of a matrix. -/
def r2 (m : Matrix2) : Vector2 :=
  { x := m.uy, y := m.vy }

/-- The matrix×matrix branch of the overloaded Mat2.mul. -/
def mulMatrix (m n : Matrix2) : Matrix2 :=
  { ux := Vec2.dot (r1 m) (c1 n)
    vx := Vec2.dot (r1 m) (c2 n)
    uy := Vec2.dot (r2 m) (c1 n)
    vy := Vec2.dot (r2 m) (c2 n) }

/-- The matrix×vector branch of the overloaded Mat2.mul. -/
def mulVector (m : Matrix2) (v : Vector2) : Vector2 :=
  { x := Vec2.dot (r1 m) v
    y := Vec2.dot (r2 m) v }

/-- The scalar branch of the overloaded Mat2.mul. -/
def mulScalar (m : Matrix2) (t : ℝ) : Matrix2 :=
  { ux := m.ux * t, vx := m.vx * t
    uy := m.uy * t, vy := m.vy * t }

/-- Trace of a matrix. -/
def trace (m : Matrix2) : ℝ :=
  m.ux + m.vy

/-- Determinant of a matrix. -/
def determinant (m : Matrix2) : ℝ :=
  m.ux * m.vy - m.vx * m.uy

/-- Transpose of a matrix. -/
def transpose (m : Matrix2) : Matrix2 :=
  { ux := m.ux, vx := m.uy
    uy := m.vx, vy := m.vy }

/-- Cofactor matrix of a matrix. -/
def cofactor (m : Matrix2) : Matrix2 :=
  { ux := m.vy, vx := -m.uy
    uy := -m.vx, vy := m.ux }

/-- Adjugate matrix of a matrix. -/
def adjugate (m : Matrix2) : Matrix2 :=
  { ux := m.vy, vx := -m.vx
    uy := -m.uy, vy := m.ux }

/-- Mat2.inverse: throws when the determinant is exactly zero (modelled as
`none`), otherwise the adjugate scaled by the reciprocal determinant. -/
def inverse (m : Matrix2) : Option Matrix2 :=
  if determinant m = 0 then none
  else some (mulScalar (adjugate m) (1 / determinant m))

/-- Reference view of a Matrix2 as a Mathlib 2×2 matrix under the stated
layout: rows indexed by the subscript (x, y), columns by the letter (u, v). -/
def toMatrix (m : Matrix2) : Matrix (Fin 2) (Fin 2) ℝ :=
  Matrix.of fun i j =>
    match i, j with
    | 0, 0 => m.ux
    | 0, 1 => m.vx
    | 1, 0 => m.uy
    | 1, 1 => m.vy

end Mat2

namespace Mat3

/-- The 3×3 identity matrix constant. -/
def Identity : Matrix3 :=
  { ux := 1, vx := 0, wx := 0
    uy := 0, vy := 1, wy := 0
    uz := 0, vz := 0, wz := 1 }

/-- Mat3.from on the flat-array overload: requires at least 9 elements, read
in row-major order; otherwise the code throws ("Invalid input values"),
modelled as `none`. The defaults passed to getD are unreachable under the
length guard. -/
def fromArray (l : List ℝ) : Option Matrix3 :=
  if 9 ≤ l.length then
    some { ux := l.getD 0 0, vx := l.getD 1 0, wx := l.getD 2 0
           uy := l.getD 3 0, vy := l.getD 4 0, wy := l.getD 5 0
           uz := l.getD 6 0, vz := l.getD 7 0, wz := l.getD 8 0 }
  else none

/-- Mat3.from on the three-column-vector overload. Named ofCols because
`from` is a Lean keyword. -/
def ofCols (u v w : Vector3) : Matrix3 :=
  { ux := u.x, vx := v.x, wx := w.x
    uy := u.y, vy := v.y, wy := w.y
    uz := u.z, vz := v.z, wz := w.z }

/-- First column vector of a matrix. -/
def c1 (m : Matrix3) : Vector3 :=
  { x := m.ux, y := m.uy, z := m.uz }

/-- Second column vector of a matrix. -/
def c2 (m : Matrix3) : Vector3 :=
  { x := m.vx, y := m.vy, z := m.vz }

/-- Third column vector of a matrix. -/
def c3 (m : Matrix3) : Vector3 :=
  { x := m.wx, y := m.wy, z := m.wz }

/-- First row vector of a matrix. -/
def r1 (m : Matrix3) : Vector3 :=
  { x := m.ux, y := m.vx, z := m.wx }

/-- Second row vector of a matrix. -/
def r2 (m : Matrix3) : Vector3 :=
  { x := m.uy, y := m.vy, z := m.wy }

/-- Third row vector of a matrix. -/
def r3 (m : Matrix3) : Vector3 :=
  { x := m.uz, y := m.vz, z := m.wz }

/-- The matrix×matrix branch of the overloaded Mat3.mul. -/
def mulMatrix (m n : Matrix3) : Matrix3 :=
  { ux := Vec3.dot (r1 m) (c1 n)
    vx := Vec3.dot (r1 m) (c2 n)
    wx := Vec3.dot (r1 m) (c3 n)
    uy := Vec3.dot (r2 m) (c1 n)
    vy := Vec3.dot (r2 m) (c2 n)
    wy := Vec3.dot (r2 m) (c3 n)
    uz := Vec3.dot (r3 m) (c1 n)
    vz := Vec3.dot (r3 m) (c2 n)
    wz := Vec3.dot (r3 m) (c3 n) }

/-- The matrix×vector branch of the overloaded Mat3.mul. -/
def mulVector (m : Matrix3) (v : Vector3) : Vector3 :=
  { x := Vec3.dot (r1 m) v
    y := Vec3.dot (r2 m) v
    z := Vec3.dot (r3 m) v }

/-- The scalar branch of the overloaded Mat3.mul. -/
def mulScalar (m : Matrix3) (t : ℝ) : Matrix3 :=
  { ux := m.ux * t, vx := m.vx * t, wx := m.wx * t
    uy := m.uy * t, vy := m.vy * t, wy := m.wy * t
    uz := m.uz * t, vz := m.vz * t, wz := m.wz * t }

/-- Trace of a matrix. -/
def trace (m : Matrix3) : ℝ :=
  m.ux + m.vy + m.wz

/-- Determinant of a matrix, as written in the source. -/
def determinant (m : Matrix3) : ℝ :=
  m.ux * m.vy * m.wz + m.uy * m.vz * m.wx + m.uz * m.vx * m.wy
    - m.wx * m.vy * m.uz - m.wy * m.vz * m.ux - m.wz * m.vx * m.uy

/-- Transpose of a matrix. -/
def transpose (m : Matrix3) : Matrix3 :=
  { ux := m.ux, vx := m.uy, wx := m.uz
    uy := m.vx, vy := m.vy, wy := m.vz
    uz := m.wx, vz := m.wy, wz := m.wz }

/-- Cofactor matrix of a matrix, as written in the source. -/
def cofactor (m : Matrix3) : Matrix3 :=
  { ux := m.vy * m.wz - m.wy * m.vz
    vx := m.wy * m.uz - m.uy * m.wz
    wx := m.uy * m.vz - m.vy * m.uz
    uy := m.wx * m.vz - m.vx * m.wz
    vy := m.ux * m.wz - m.wx * m.uz
    wy := m.vx * m.uz - m.ux * m.vz
    uz := m.vx * m.wy - m.wx * m.vy
    vz := m.wx * m.uy - m.ux * m.wy
    wz := m.ux * m.vy - m.vx * m.uy }

/-- Adjugate matrix of a matrix, as written in the source. -/
def adjugate (m : Matrix3) : Matrix3 :=
  { ux := m.vy * m.wz - m.wy * m.vz
    vx := m.wx * m.vz - m.vx * m.wz
    wx := m.vx * m.wy - m.wx * m.vy
    uy := m.wy * m.uz - m.uy * m.wz
    vy := m.ux * m.wz - m.wx * m.uz
    wy := m.wx * m.uy - m.ux * m.wy
    uz := m.uy * m.vz - m.vy * m.uz
    vz := m.vx * m.uz - m.ux * m.vz
    wz := m.ux * m.vy - m.vx * m.uy }

/-- Mat3.inverse: throws when the determinant is exactly zero (modelled as
`none`), otherwise the adjugate scaled by the reciprocal determinant. -/
def inverse (m : Matrix3) : Option Matrix3 :=
  if determinant m = 0 then none
  else some (mulScalar (adjugate m) (1 / determinant m))

/-- Mat3.buildTNB: picks the fixed West fallback when `|n.y| == 1`, otherwise
normalizes `(n.z, 0, -n.x)`, then completes the basis with a cross product
and returns the columns (tangent, normal, binormal). -/
def buildTNB (n : Vector3) : Matrix3 :=
  let u := if |n.y| = 1 then Vec3.West
           else Vec3.normalize (Vec3.from' n.z (some 0) (some (-n.x)))
  let w := Vec3.cross n u
  ofCols u n w

/-- Reference view of a Matrix3 as a Mathlib 3×3 matrix under the stated
layout: rows indexed by the subscript (x, y, z), columns by the letter
(u, v, w). -/
def toMatrix (m : Matrix3) : Matrix (Fin 3) (Fin 3) ℝ :=
  Matrix.of fun i j =>
    match i, j with
    | 0, 0 => m.ux
    | 0, 1 => m.vx
    | 0, 2 => m.wx
    | 1, 0 => m.uy
    | 1, 1 => m.vy
    | 1, 2 => m.wy
    | 2, 0 => m.uz
    | 2, 1 => m.vz
    | 2, 2 => m.wz

/-- Entry of a Matrix3 at (row i, column j) under the stated layout. -/
def entry (m : Matrix3) (i j : Fin 3) : ℝ :=
  toMatrix m i j

/-- Determinant of the 2×2 submatrix of m obtained by deleting row i and
column j, following the spec's definition of `minor_ij`. -/
def minor (m : Matrix3) (i j : Fin 3) : ℝ :=
  ((toMatrix m).submatrix i.succAbove j.succAbove).det

end Mat3

/-- Field names a duck-typed value may expose; used to model the structural
predicates that disambiguate the overloaded mul at run time. -/
inductive FieldName where
  | ux | vx | wx | uy | vy | wy | uz | vz | wz | x | y | z
  deriving DecidableEq, BEq

/-- A run-time value passed as the second argument of the overloaded mul:
either a number or an object exposing some set of fields. -/
inductive JSVal where
  | num : ℝ → JSVal
  | obj : List FieldName → JSVal

namespace Mat2

/-- Mat2.isMatrix2: an object exposing all four Matrix2 fields (a number is
not an object, so the typeof guard rejects it). -/
def isMatrix2 : JSVal → Bool
  | .num _ => false
  | .obj fs => fs.contains .ux && fs.contains .vx && fs.contains .uy && fs.contains .vy

end Mat2

namespace Vec2

/-- Modelled from the spec: vector2.ts is not under src/; §4.1 defines the
isVector predicate as true iff the value exposes the numeric fields x, y. -/
def isVector2 : JSVal → Bool
  | .num _ => false
  | .obj fs => fs.contains .x && fs.contains .y

end Vec2

namespace Mat3

/-- Mat3.isMatrix3 of src/unnamed/part_001: an object exposing all nine
Matrix3 fields. -/
def isMatrix3 : JSVal → Bool
  | .num _ => false
  | .obj fs =>
    fs.contains .ux && fs.contains .vx && fs.contains .wx &&
    fs.contains .uy && fs.contains .vy && fs.contains .wy &&
    fs.contains .uz && fs.contains .vz && fs.contains .wz

end Mat3

namespace Vec3

/-- Modelled from the spec: vector3.ts is not under src/; §4.1 defines the
isVector predicate as true iff the value exposes the numeric fields x, y, z. -/
def isVector3 : JSVal → Bool
  | .num _ => false
  | .obj fs => fs.contains .x && fs.contains .y && fs.contains .z

end Vec3

/-- Which branch of the overloaded mul runs. -/
inductive MulBranch where
  | matrix | vector | scalar
  deriving DecidableEq

namespace Mat2

/-- Dispatch structure of Mat2.mul: the matrix predicate is tested first,
then the vector predicate, and everything else falls to scalar scaling. -/
def mulBranch (t : JSVal) : MulBranch :=
  if isMatrix2 t then .matrix
  else if Vec2.isVector2 t then .vector
  else .scalar

end Mat2

namespace Mat3

/-- Dispatch structure of Mat3.mul: the matrix predicate is tested first,
then the vector predicate, and everything else falls to scalar scaling. -/
def mulBranch (t : JSVal) : MulBranch :=
  if isMatrix3 t then .matrix
  else if Vec3.isVector3 t then .vector
  else .scalar

end Mat3

/-- Spec claim C8: transposing twice is the identity on both matrix sizes,
with exact component-for-component equality. -/
theorem transpose_transpose_eq_self :
    (∀ m : Matrix2, Mat2.transpose (Mat2.transpose m) = m) ∧
    (∀ m : Matrix3, Mat3.transpose (Mat3.transpose m) = m) := by
  constructor
  · intro m; rfl
  · intro m; rfl

/-- Spec claim C5: for both sizes the adjugate equals the transpose of the
cofactor matrix, entry for entry. -/
theorem adjugate_eq_transpose_cofactor :
    (∀ m : Matrix2, Mat2.adjugate m = Mat2.transpose (Mat2.cofactor m)) ∧
    (∀ m : Matrix3, Mat3.adjugate m = Mat3.transpose (Mat3.cofactor m)) := by
  constructor
  · intro m; rfl
  · intro m; rfl

/-- Spec claim C4: the 2×2 determinant is `ux*vy - vx*uy`, the 3×3
determinant is the Leibniz expansion, and both agree with the reference
determinant of the matrix under the stated row/column layout. -/
theorem determinant_leibniz_formula :
    (∀ m : Matrix2,
      Mat2.determinant m = m.ux * m.vy - m.vx * m.uy ∧
      Mat2.determinant m = (Mat2.toMatrix m).det) ∧
    (∀ m : Matrix3,
      Mat3.determinant m =
        m.ux * m.vy * m.wz + m.uy * m.vz * m.wx + m.uz * m.vx * m.wy
          - m.wx * m.vy * m.uz - m.wy * m.vz * m.ux - m.wz * m.vx * m.uy ∧
      Mat3.determinant m = (Mat3.toMatrix m).det) := by
  constructor
  · intro m
    refine ⟨rfl, ?_⟩
    simp [Mat2.determinant, Mat2.toMatrix, Matrix.det_fin_two, Matrix.of_apply]
  · intro m
    refine ⟨rfl, ?_⟩
    simp [Mat3.determinant, Mat3.toMatrix, Matrix.det_fin_three, Matrix.of_apply]
    ring

/-- Spec claim C1: for both sizes, inverse fails (returns none, modelling the
NotInvertible throw) exactly when the determinant is exactly zero, and on a
non-zero determinant returns the adjugate scaled by the reciprocal
determinant. -/
theorem inverse_none_iff_det_zero :
    (∀ m : Matrix2,
      (Mat2.inverse m = none ↔ Mat2.determinant m = 0) ∧
      (Mat2.determinant m ≠ 0 →
        Mat2.inverse m =
          some (Mat2.mulScalar (Mat2.adjugate m) (1 / Mat2.determinant m)))) ∧
    (∀ m : Matrix3,
      (Mat3.inverse m = none ↔ Mat3.determinant m = 0) ∧
      (Mat3.determinant m ≠ 0 →
        Mat3.inverse m =
          some (Mat3.mulScalar (Mat3.adjugate m) (1 / Mat3.determinant m)))) := by
  constructor
  · intro m
    constructor
    · unfold Mat2.inverse; split <;> simp_all
    · intro h; simp [Mat2.inverse, h]
  · intro m
    constructor
    · unfold Mat3.inverse; split <;> simp_all
    · intro h; simp [Mat3.inverse, h]

/-- Witness for C1: a concrete invertible 2×2 matrix and the 3×3 identity
take the non-failing branch, and a concrete singular matrix fails. -/
theorem inverse_none_iff_det_zero_witness :
    Mat2.inverse { ux := 1, vx := 0, uy := 0, vy := 2 } =
      some (Mat2.mulScalar (Mat2.adjugate { ux := 1, vx := 0, uy := 0, vy := 2 })
        (1 / Mat2.determinant { ux := 1, vx := 0, uy := 0, vy := 2 })) ∧
    Mat3.inverse Mat3.Identity =
      some (Mat3.mulScalar (Mat3.adjugate Mat3.Identity)
        (1 / Mat3.determinant Mat3.Identity)) ∧
    Mat2.inverse { ux := 1, vx := 2, uy := 2, vy := 4 } = none :=
  ⟨(inverse_none_iff_det_zero.1 { ux := 1, vx := 0, uy := 0, vy := 2 }).2
      (by norm_num [Mat2.determinant]),
   (inverse_none_iff_det_zero.2 Mat3.Identity).2
      (by norm_num [Mat3.determinant, Mat3.Identity]),
   (inverse_none_iff_det_zero.1 { ux := 1, vx := 2, uy := 2, vy := 4 }).1.mpr
      (by norm_num [Mat2.determinant])⟩

/-- Spec claim C6: the flat-array constructors fill the coefficients in
row-major order whenever the array is long enough (4 for 2×2, 9 for 3×3) and
fail with InvalidInput (modelled as none) on every shorter array. -/
theorem fromArray_rowMajor_or_invalid :
    (∀ l : List ℝ, ∀ h : 4 ≤ l.length,
      Mat2.fromArray l = some
        { ux := l.get ⟨0, by omega⟩, vx := l.get ⟨1, by omega⟩
          uy := l.get ⟨2, by omega⟩, vy := l.get ⟨3, by omega⟩ }) ∧
    (∀ l : List ℝ, l.length < 4 → Mat2.fromArray l = none) ∧
    (∀ l : List ℝ, ∀ h : 9 ≤ l.length,
      Mat3.fromArray l = some
        { ux := l.get ⟨0, by omega⟩, vx := l.get ⟨1, by omega⟩, wx := l.get ⟨2, by omega⟩
          uy := l.get ⟨3, by omega⟩, vy := l.get ⟨4, by omega⟩, wy := l.get ⟨5, by omega⟩
          uz := l.get ⟨6, by omega⟩, vz := l.get ⟨7, by omega⟩, wz := l.get ⟨8, by omega⟩ }) ∧
    (∀ l : List ℝ, l.length < 9 → Mat3.fromArray l = none) := by
  refine ⟨?_, ?_, ?_, ?_⟩
  · intro l h
    simp only [Mat2.fromArray, if_pos h, Option.some.injEq]
    ext <;> simp only [List.get_eq_getElem] <;>
      exact List.getD_eq_getElem l 0 (by omega)
  · intro l h
    rw [Mat2.fromArray, if_neg (by omega)]
  · intro l h
    simp only [Mat3.fromArray, if_pos h, Option.some.injEq]
    ext <;> simp only [List.get_eq_getElem] <;>
      exact List.getD_eq_getElem l 0 (by omega)
  · intro l h
    rw [Mat3.fromArray, if_neg (by omega)]

/-- Witness for C6: `[1,2,3,4]` builds the expected 2×2 matrix, a 9-element
list builds the expected 3×3 matrix, and short arrays (including the empty
array) fail. -/
theorem fromArray_rowMajor_or_invalid_witness :
    Mat2.fromArray [1, 2, 3, 4] = some { ux := 1, vx := 2, uy := 3, vy := 4 } ∧
    Mat2.fromArray [] = none ∧
    Mat3.fromArray [1, 2, 3, 4, 5, 6, 7, 8, 9] = some
      { ux := 1, vx := 2, wx := 3
        uy := 4, vy := 5, wy := 6
        uz := 7, vz := 8, wz := 9 } ∧
    Mat3.fromArray [1, 2, 3] = none := by
  refine ⟨?_, ?_, ?_, ?_⟩
  · have h := fromArray_rowMajor_or_invalid.1 [1, 2, 3, 4] (by simp)
    simpa using h
  · exact fromArray_rowMajor_or_invalid.2.1 [] (by simp)
  · have h := fromArray_rowMajor_or_invalid.2.2.1 [1, 2, 3, 4, 5, 6, 7, 8, 9] (by simp)
    simpa using h
  · exact fromArray_rowMajor_or_invalid.2.2.2 [1, 2, 3] (by simp)

/-- Spec claim C10: Vec3.from defaults every omitted or undefined component
to the x argument (never to zero), while explicitly supplied values,
including 0, are preserved. -/
theorem from_defaults_to_x :
    (∀ s : ℝ, Vec3.from' s none none = { x := s, y := s, z := s }) ∧
    (∀ x z : ℝ, Vec3.from' x none (some z) = { x := x, y := x, z := z }) ∧
    (∀ x z : ℝ, Vec3.from' x (some 0) (some z) = { x := x, y := 0, z := z }) ∧
    (∀ x y z : ℝ, Vec3.from' x (some y) (some z) = { x := x, y := y, z := z }) :=
  ⟨fun _ => rfl, fun _ _ => rfl, fun _ _ => rfl, fun _ _ _ => rfl⟩

/-- Spec claim C3: each entry of the 3×3 cofactor matrix, read at (row i,
column j) under the column-letter/row-subscript naming, is the signed minor
`(-1)^(i+j)` times the determinant of the 2×2 submatrix of m obtained by
deleting row i and column j. -/
theorem cofactor_entry_eq_signed_minor :
    ∀ (m : Matrix3) (i j : Fin 3),
      Mat3.entry (Mat3.cofactor m) i j =
        (-1 : ℝ) ^ ((i : ℕ) + (j : ℕ)) * Mat3.minor m i j := by
  intro m i j
  fin_cases i <;> fin_cases j <;>
    simp [Mat3.entry, Mat3.minor, Mat3.toMatrix, Mat3.cofactor,
      Matrix.det_fin_two, Matrix.submatrix_apply, Fin.succAbove,
      Fin.lt_def, Matrix.of_apply] <;> ring

/-- Spec claim C7: for every matrix with non-zero determinant, multiplying
the matrix by its inverse yields the identity of matching size, exactly,
over exact real arithmetic. -/
theorem mul_inverse_eq_identity :
    (∀ m : Matrix2, Mat2.determinant m ≠ 0 →
      ∃ n, Mat2.inverse m = some n ∧ Mat2.mulMatrix m n = Mat2.Identity) ∧
    (∀ m : Matrix3, Mat3.determinant m ≠ 0 →
      ∃ n, Mat3.inverse m = some n ∧ Mat3.mulMatrix m n = Mat3.Identity) := by
  constructor
  · intro m h
    refine ⟨Mat2.mulScalar (Mat2.adjugate m) (1 / Mat2.determinant m),
      by simp [Mat2.inverse, h], ?_⟩
    ext <;>
      · simp only [Mat2.mulMatrix, Mat2.mulScalar, Mat2.adjugate, Mat2.r1,
          Mat2.r2, Mat2.c1, Mat2.c2, Vec2.dot, Mat2.Identity]
        field_simp
        try simp only [Mat2.determinant] at h ⊢
        try ring
  · intro m h
    refine ⟨Mat3.mulScalar (Mat3.adjugate m) (1 / Mat3.determinant m),
      by simp [Mat3.inverse, h], ?_⟩
    ext <;>
      · simp only [Mat3.mulMatrix, Mat3.mulScalar, Mat3.adjugate, Mat3.r1,
          Mat3.r2, Mat3.r3, Mat3.c1, Mat3.c2, Mat3.c3, Vec3.dot, Mat3.Identity]
        field_simp
        try simp only [Mat3.determinant] at h ⊢
        try ring

/-- Witness for C7: a concrete diagonal 2×2 matrix and the 3×3 identity are
invertible and multiply with their inverses to the identity. -/
theorem mul_inverse_eq_identity_witness :
    (∃ n, Mat2.inverse { ux := 1, vx := 0, uy := 0, vy := 2 } = some n ∧
      Mat2.mulMatrix { ux := 1, vx := 0, uy := 0, vy := 2 } n = Mat2.Identity) ∧
    (∃ n, Mat3.inverse Mat3.Identity = some n ∧
      Mat3.mulMatrix Mat3.Identity n = Mat3.Identity) :=
  ⟨mul_inverse_eq_identity.1 { ux := 1, vx := 0, uy := 0, vy := 2 }
      (by norm_num [Mat2.determinant]),
   mul_inverse_eq_identity.2 Mat3.Identity
      (by norm_num [Mat3.determinant, Mat3.Identity])⟩

/-- Spec claim C2: buildTNB returns the input normal as the middle column
exactly; the first column is the fixed West fallback exactly when `|n.y| = 1`
and otherwise the normalized `(n.z, 0, -n.x)`; the third column is the cross
product of the normal with the first column. At the pole input (0, 1, 0) the
fallback branch is taken. -/
theorem buildTNB_columns :
    (∀ n : Vector3,
      Mat3.c2 (Mat3.buildTNB n) = n ∧
      Mat3.c1 (Mat3.buildTNB n) =
        (if |n.y| = 1 then Vec3.West
         else Vec3.normalize (Vec3.from' n.z (some 0) (some (-n.x)))) ∧
      Mat3.c3 (Mat3.buildTNB n) = Vec3.cross n (Mat3.c1 (Mat3.buildTNB n))) ∧
    Mat3.c1 (Mat3.buildTNB { x := 0, y := 1, z := 0 }) = Vec3.West := by
  constructor
  · intro n
    exact ⟨rfl, rfl, rfl⟩
  · simp [Mat3.buildTNB, Mat3.ofCols, Mat3.c1, abs_one]

/-- Spec claim C9: the overloaded mul tests the matrix predicate before the
vector predicate, so a value satisfying both is sent to the matrix×matrix
branch, and the scalar branch runs exactly when the value satisfies neither
predicate. -/
theorem mul_dispatch_order :
    (∀ t : JSVal,
      (Mat2.isMatrix2 t = true → Mat2.mulBranch t = MulBranch.matrix) ∧
      (Mat2.mulBranch t = MulBranch.scalar ↔
        Mat2.isMatrix2 t = false ∧ Vec2.isVector2 t = false)) ∧
    (∀ t : JSVal,
      (Mat3.isMatrix3 t = true → Mat3.mulBranch t = MulBranch.matrix) ∧
      (Mat3.mulBranch t = MulBranch.scalar ↔
        Mat3.isMatrix3 t = false ∧ Vec3.isVector3 t = false)) := by
  constructor
  · intro t
    refine ⟨fun h => by simp [Mat2.mulBranch, h], ?_⟩
    cases hm : Mat2.isMatrix2 t <;> cases hv : Vec2.isVector2 t <;>
      simp [Mat2.mulBranch, hm, hv]
  · intro t
    refine ⟨fun h => by simp [Mat3.mulBranch, h], ?_⟩
    cases hm : Mat3.isMatrix3 t <;> cases hv : Vec3.isVector3 t <;>
      simp [Mat3.mulBranch, hm, hv]

/-- Witness for C9: an object exposing all Matrix2 fields together with the
Vector2 fields still dispatches to the matrix branch, and a plain number
dispatches to the scalar branch. -/
theorem mul_dispatch_order_witness :
    Mat2.mulBranch (JSVal.obj [.ux, .vx, .uy, .vy, .x, .y]) = MulBranch.matrix ∧
    Vec2.isVector2 (JSVal.obj [.ux, .vx, .uy, .vy, .x, .y]) = true ∧
    Mat3.mulBranch (JSVal.obj
      [.ux, .vx, .wx, .uy, .vy, .wy, .uz, .vz, .wz, .x, .y, .z]) = MulBranch.matrix ∧
    Mat3.mulBranch (JSVal.num 5) = MulBranch.scalar :=
  ⟨(mul_dispatch_order.1 (JSVal.obj [.ux, .vx, .uy, .vy, .x, .y])).1 (by decide),
   by decide,
   (mul_dispatch_order.2 (JSVal.obj
      [.ux, .vx, .wx, .uy, .vy, .wy, .uz, .vz, .wz, .x, .y, .z])).1 (by decide),
   (mul_dispatch_order.2 (JSVal.num 5)).2.mpr ⟨rfl, rfl⟩⟩

end MCVecLib
